import Mathlib

/-!
Verification of the Atari slapstic bank-switching FSM
(`src/mame/machine/slapstic.cpp`).

The embedding mirrors the C++ source: the per-chip constant tables
(`slapstic101` .. `slapstic118`), the per-access transition function
`slapstic_tweak`, the 68000 disambiguation kludge `alt2_kludge`, and the
reset/init entry points.  Machine integers are modelled as `Nat`; the
source only ever compares, masks and shifts non-negative values, and the
one place where 32-bit truncation could matter (`state_int` cast to
`uint32_t` in `alt2_kludge`) carries an explicit `% 2 ^ 32`.
-/

namespace Slapstic

/-- The FSM states, named as in the source's enum
(DISABLED, ENABLED, ALTERNATE1..3, BITWISE1..3, ADDITIVE1..3). -/
inductive SlapState where
  | DISABLED
  | ENABLED
  | ALTERNATE1
  | ALTERNATE2
  | ALTERNATE3
  | BITWISE1
  | BITWISE2
  | BITWISE3
  | ADDITIVE1
  | ADDITIVE2
  | ADDITIVE3
  deriving DecidableEq, Repr

/-- Modelled from the spec: a trigger pair, "(mask, target) rule; an address
matches if bitwise-ANDing with mask equals target".  The C++ `struct
mask_value` lives in `includes/slapstic.h`, which is not part of this tree. -/
structure mask_value where
  mask : Nat
  value : Nat
  deriving DecidableEq, Repr

/-- Modelled from the spec: the `UNKNOWN` placeholder used in the chip tables
(defined in the missing header `includes/slapstic.h`); a target value no
14-bit address can produce, so a pair carrying it never matches. -/
def UNKNOWN : Nat := 0xffff

/-- Modelled from the spec: an absent trigger pair ("absent (all-zero mask)"),
as produced by the `NO_BITWISE` / `NO_ADDITIVE` macros of the missing header. -/
def absent_pair : mask_value := ⟨0, UNKNOWN⟩

/-- The per-chip configuration record, mirroring `struct slapstic_data`:
starting bank, the four bank-select addresses, and the mask/value pairs of
the alternate, bitwise and additive families. -/
structure slapstic_data where
  bankstart : Nat
  bank0 : Nat
  bank1 : Nat
  bank2 : Nat
  bank3 : Nat
  alt1 : mask_value
  alt2 : mask_value
  alt3 : mask_value
  alt4 : mask_value
  altshift : Nat
  bit1 : mask_value
  bit2c0 : mask_value
  bit2s0 : mask_value
  bit2c1 : mask_value
  bit2s1 : mask_value
  bit3 : mask_value
  add1 : mask_value
  add2 : mask_value
  addplus1 : mask_value
  addplus2 : mask_value
  add3 : mask_value
  deriving DecidableEq, Repr

/-- The bank-select address with index `k`, i.e. the entry `bank[k]` of the
C++ `bank` array. -/
def slapstic_data.bank (d : slapstic_data) : Fin 4 → Nat
  | 0 => d.bank0
  | 1 => d.bank1
  | 2 => d.bank2
  | 3 => d.bank3

/-- Modelled from the spec: the `MATCHES_MASK_VALUE` macro of the missing
header `includes/slapstic.h`:
`matches(address, pair) := pair.mask != 0 && (address & pair.mask) == pair.target`. -/
def MATCHES_MASK_VALUE (val : Nat) (mv : mask_value) : Bool :=
  mv.mask != 0 && (val &&& mv.mask) == mv.value

/-- The mutable per-device registers of `atari_slapstic_device`:
FSM state, current bank, and the three pending-bank / xor scratch registers. -/
structure slapstic_state where
  state : SlapState
  current_bank : Nat
  alt_bank : Nat
  bit_bank : Nat
  add_bank : Nat
  bit_xor : Nat
  deriving DecidableEq, Repr

/-- The external 68000 CPU state read (never written) by `alt2_kludge`:
whether the device runs in 68k mode (`access_68k`), the prefetched program
counter, the opcode word fetched at `pcbase`, and the address-register file
(`state_int(M68K_A0 + i)`). -/
structure cpu_view where
  access_68k : Bool
  pc : Nat
  opcode_at_pcbase : Nat
  regs : Nat → Nat

/-- `alt2_kludge`: on 68k, confirm the prefetched PC against `alt1`, look for
a `move.w (An),(An)` / `cmpm.w (An)+,(An)+` opcode shape, and test the
register-contained address against `alt3`; on success jump to ALTERNATE3 with
the pending alternate bank extracted from the register value, otherwise fall
back to ENABLED.  Non-68k devices go straight to ALTERNATE2.  Returns the new
state together with the (possibly updated) `alt_bank`. -/
def alt2_kludge (slap : slapstic_data) (cpu : cpu_view) (alt_bank : Nat) :
    SlapState × Nat :=
  if cpu.access_68k then
    if MATCHES_MASK_VALUE (cpu.pc >>> 1) slap.alt1 then
      if (cpu.opcode_at_pcbase &&& 0xf1f8) == 0x3090 ||
         (cpu.opcode_at_pcbase &&& 0xf1f8) == 0xb148 then
        if MATCHES_MASK_VALUE
            ((cpu.regs ((cpu.opcode_at_pcbase >>> 9) &&& 7) % 2 ^ 32) >>> 1)
            slap.alt3 then
          (SlapState.ALTERNATE3,
           (((cpu.regs ((cpu.opcode_at_pcbase >>> 9) &&& 7) % 2 ^ 32) >>> 1) >>>
              slap.altshift) &&& 3)
        else
          (SlapState.ENABLED, alt_bank)
      else
        (SlapState.ENABLED, alt_bank)
    else
      (SlapState.ENABLED, alt_bank)
  else
    (SlapState.ALTERNATE2, alt_bank)

/-- `slapstic_tweak`: the per-access transition function.  Address 0 is the
universal reset to ENABLED; otherwise the machine dispatches on the current
state exactly as the C++ switch does.  `~1` and `~2` on the 32-bit
`bit_bank` register become masks against `0xfffffffe` / `0xfffffffd`. -/
def slapstic_tweak (slap : slapstic_data) (cpu : cpu_view)
    (st : slapstic_state) (offset : Nat) : slapstic_state :=
  if offset = 0x0000 then
    { st with state := SlapState.ENABLED }
  else
    match st.state with
    | SlapState.DISABLED => st
    | SlapState.ENABLED =>
      if MATCHES_MASK_VALUE offset slap.bit1 then
        { st with state := SlapState.BITWISE1 }
      else if MATCHES_MASK_VALUE offset slap.add1 then
        { st with state := SlapState.ADDITIVE1 }
      else if MATCHES_MASK_VALUE offset slap.alt1 then
        { st with state := SlapState.ALTERNATE1 }
      else if MATCHES_MASK_VALUE offset slap.alt2 then
        { st with state := (alt2_kludge slap cpu st.alt_bank).1,
                  alt_bank := (alt2_kludge slap cpu st.alt_bank).2 }
      else if offset = slap.bank0 then
        { st with state := SlapState.DISABLED, current_bank := 0 }
      else if offset = slap.bank1 then
        { st with state := SlapState.DISABLED, current_bank := 1 }
      else if offset = slap.bank2 then
        { st with state := SlapState.DISABLED, current_bank := 2 }
      else if offset = slap.bank3 then
        { st with state := SlapState.DISABLED, current_bank := 3 }
      else
        st
    | SlapState.ALTERNATE1 =>
      if MATCHES_MASK_VALUE offset slap.alt2 then
        { st with state := SlapState.ALTERNATE2 }
      else
        { st with state := SlapState.ENABLED }
    | SlapState.ALTERNATE2 =>
      if MATCHES_MASK_VALUE offset slap.alt3 then
        { st with state := SlapState.ALTERNATE3,
                  alt_bank := (offset >>> slap.altshift) &&& 3 }
      else
        { st with state := SlapState.ENABLED }
    | SlapState.ALTERNATE3 =>
      if MATCHES_MASK_VALUE offset slap.alt4 then
        { st with state := SlapState.DISABLED, current_bank := st.alt_bank }
      else
        st
    | SlapState.BITWISE1 =>
      if offset = slap.bank0 ∨ offset = slap.bank1 ∨
         offset = slap.bank2 ∨ offset = slap.bank3 then
        { st with state := SlapState.BITWISE2,
                  bit_bank := st.current_bank, bit_xor := 0 }
      else
        st
    | SlapState.BITWISE2 =>
      if MATCHES_MASK_VALUE (offset ^^^ st.bit_xor) slap.bit2c0 then
        { st with bit_bank := st.bit_bank &&& 0xfffffffe,
                  bit_xor := st.bit_xor ^^^ 3 }
      else if MATCHES_MASK_VALUE (offset ^^^ st.bit_xor) slap.bit2s0 then
        { st with bit_bank := st.bit_bank ||| 1,
                  bit_xor := st.bit_xor ^^^ 3 }
      else if MATCHES_MASK_VALUE (offset ^^^ st.bit_xor) slap.bit2c1 then
        { st with bit_bank := st.bit_bank &&& 0xfffffffd,
                  bit_xor := st.bit_xor ^^^ 3 }
      else if MATCHES_MASK_VALUE (offset ^^^ st.bit_xor) slap.bit2s1 then
        { st with bit_bank := st.bit_bank ||| 2,
                  bit_xor := st.bit_xor ^^^ 3 }
      else if MATCHES_MASK_VALUE offset slap.bit3 then
        { st with state := SlapState.BITWISE3 }
      else
        st
    | SlapState.BITWISE3 =>
      if offset = slap.bank0 ∨ offset = slap.bank1 ∨
         offset = slap.bank2 ∨ offset = slap.bank3 then
        { st with state := SlapState.DISABLED, current_bank := st.bit_bank }
      else
        st
    | SlapState.ADDITIVE1 =>
      if MATCHES_MASK_VALUE offset slap.add2 then
        { st with state := SlapState.ADDITIVE2, add_bank := st.current_bank }
      else
        { st with state := SlapState.ENABLED }
    | SlapState.ADDITIVE2 =>
      let st1 :=
        if MATCHES_MASK_VALUE offset slap.addplus1 then
          { st with add_bank := (st.add_bank + 1) &&& 3 }
        else
          st
      let st2 :=
        if MATCHES_MASK_VALUE offset slap.addplus2 then
          { st1 with add_bank := (st1.add_bank + 2) &&& 3 }
        else
          st1
      if MATCHES_MASK_VALUE offset slap.add3 then
        { st2 with state := SlapState.ADDITIVE3 }
      else
        st2
    | SlapState.ADDITIVE3 =>
      if offset = slap.bank0 ∨ offset = slap.bank1 ∨
         offset = slap.bank2 ∨ offset = slap.bank3 then
        { st with state := SlapState.DISABLED, current_bank := st.add_bank }
      else
        st

/-- `slapstic_reset`: sets the state to DISABLED and the bank to the chip's
starting bank; the scratch registers are left as they are. -/
def slapstic_reset (slap : slapstic_data) (st : slapstic_state) :
    slapstic_state :=
  { st with state := SlapState.DISABLED, current_bank := slap.bankstart }

/-- The device state right after `slapstic_init`: the constructor zeroes every
register, then `slapstic_reset` sets the state and the starting bank. -/
def slapstic_init_state (slap : slapstic_data) : slapstic_state :=
  slapstic_reset slap ⟨SlapState.DISABLED, 0, 0, 0, 0, 0⟩

/-- `slapstic_bank`: the side-effect-free current-bank query. -/
def slapstic_bank (st : slapstic_state) : Nat :=
  st.current_bank

/-- Folds `slapstic_tweak` over a list of accesses, leftmost first. -/
def slapstic_run (slap : slapstic_data) (cpu : cpu_view)
    (st : slapstic_state) : List Nat → slapstic_state
  | [] => st
  | a :: rest => slapstic_run slap cpu (slapstic_tweak slap cpu st a) rest

/-- slapstic 137412-101: Empire Strikes Back/Tetris (NOT confirmed). -/
def slapstic101 : slapstic_data :=
  { bankstart := 3
    bank0 := 0x0080, bank1 := 0x0090, bank2 := 0x00a0, bank3 := 0x00b0
    alt1 := ⟨0x007f, UNKNOWN⟩, alt2 := ⟨0x1fff, 0x1dff⟩
    alt3 := ⟨0x1ffc, 0x1b5c⟩, alt4 := ⟨0x1fcf, 0x0080⟩
    altshift := 0
    bit1 := ⟨0x1ff0, 0x1540⟩
    bit2c0 := ⟨0x1ff3, 0x1540⟩, bit2s0 := ⟨0x1ff3, 0x1541⟩
    bit2c1 := ⟨0x1ff3, 0x1542⟩, bit2s1 := ⟨0x1ff3, 0x1543⟩
    bit3 := ⟨0x1ff8, 0x1550⟩
    add1 := absent_pair, add2 := absent_pair
    addplus1 := absent_pair, addplus2 := absent_pair, add3 := absent_pair }

/-- slapstic 137412-103: Marble Madness (confirmed). -/
def slapstic103 : slapstic_data :=
  { bankstart := 3
    bank0 := 0x0040, bank1 := 0x0050, bank2 := 0x0060, bank3 := 0x0070
    alt1 := ⟨0x007f, 0x002d⟩, alt2 := ⟨0x3fff, 0x3d14⟩
    alt3 := ⟨0x3ffc, 0x3d24⟩, alt4 := ⟨0x3fcf, 0x0040⟩
    altshift := 0
    bit1 := ⟨0x3ff0, 0x34c0⟩
    bit2c0 := ⟨0x3ff3, 0x34c0⟩, bit2s0 := ⟨0x3ff3, 0x34c1⟩
    bit2c1 := ⟨0x3ff3, 0x34c2⟩, bit2s1 := ⟨0x3ff3, 0x34c3⟩
    bit3 := ⟨0x3ff8, 0x34d0⟩
    add1 := absent_pair, add2 := absent_pair
    addplus1 := absent_pair, addplus2 := absent_pair, add3 := absent_pair }

/-- slapstic 137412-104: Gauntlet (confirmed). -/
def slapstic104 : slapstic_data :=
  { bankstart := 3
    bank0 := 0x0020, bank1 := 0x0028, bank2 := 0x0030, bank3 := 0x0038
    alt1 := ⟨0x007f, 0x0069⟩, alt2 := ⟨0x3fff, 0x3735⟩
    alt3 := ⟨0x3ffc, 0x3764⟩, alt4 := ⟨0x3fe7, 0x0020⟩
    altshift := 0
    bit1 := ⟨0x3ff0, 0x3d90⟩
    bit2c0 := ⟨0x3ff3, 0x3d90⟩, bit2s0 := ⟨0x3ff3, 0x3d91⟩
    bit2c1 := ⟨0x3ff3, 0x3d92⟩, bit2s1 := ⟨0x3ff3, 0x3d93⟩
    bit3 := ⟨0x3ff8, 0x3da0⟩
    add1 := absent_pair, add2 := absent_pair
    addplus1 := absent_pair, addplus2 := absent_pair, add3 := absent_pair }

/-- slapstic 137412-105: Indiana Jones/Paperboy (confirmed). -/
def slapstic105 : slapstic_data :=
  { bankstart := 3
    bank0 := 0x0010, bank1 := 0x0014, bank2 := 0x0018, bank3 := 0x001c
    alt1 := ⟨0x007f, 0x003d⟩, alt2 := ⟨0x3fff, 0x0092⟩
    alt3 := ⟨0x3ffc, 0x00a4⟩, alt4 := ⟨0x3ff3, 0x0010⟩
    altshift := 0
    bit1 := ⟨0x3ff0, 0x35b0⟩
    bit2c0 := ⟨0x3ff3, 0x35b0⟩, bit2s0 := ⟨0x3ff3, 0x35b1⟩
    bit2c1 := ⟨0x3ff3, 0x35b2⟩, bit2s1 := ⟨0x3ff3, 0x35b3⟩
    bit3 := ⟨0x3ff8, 0x35c0⟩
    add1 := absent_pair, add2 := absent_pair
    addplus1 := absent_pair, addplus2 := absent_pair, add3 := absent_pair }

/-- slapstic 137412-106: Gauntlet II (confirmed). -/
def slapstic106 : slapstic_data :=
  { bankstart := 3
    bank0 := 0x0008, bank1 := 0x000a, bank2 := 0x000c, bank3 := 0x000e
    alt1 := ⟨0x007f, 0x002b⟩, alt2 := ⟨0x3fff, 0x0052⟩
    alt3 := ⟨0x3ffc, 0x0064⟩, alt4 := ⟨0x3ff9, 0x0008⟩
    altshift := 0
    bit1 := ⟨0x3ff0, 0x3da0⟩
    bit2c0 := ⟨0x3ff3, 0x3da0⟩, bit2s0 := ⟨0x3ff3, 0x3da1⟩
    bit2c1 := ⟨0x3ff3, 0x3da2⟩, bit2s1 := ⟨0x3ff3, 0x3da3⟩
    bit3 := ⟨0x3ff8, 0x3db0⟩
    add1 := absent_pair, add2 := absent_pair
    addplus1 := absent_pair, addplus2 := absent_pair, add3 := absent_pair }

/-- slapstic 137412-107: Peter Packrat/Xybots/2p Gauntlet/720 (confirmed). -/
def slapstic107 : slapstic_data :=
  { bankstart := 3
    bank0 := 0x0018, bank1 := 0x001a, bank2 := 0x001c, bank3 := 0x001e
    alt1 := ⟨0x007f, 0x006b⟩, alt2 := ⟨0x3fff, 0x3d52⟩
    alt3 := ⟨0x3ffc, 0x3d64⟩, alt4 := ⟨0x3ff9, 0x0018⟩
    altshift := 0
    bit1 := ⟨0x3ff0, 0x00a0⟩
    bit2c0 := ⟨0x3ff3, 0x00a0⟩, bit2s0 := ⟨0x3ff3, 0x00a1⟩
    bit2c1 := ⟨0x3ff3, 0x00a2⟩, bit2s1 := ⟨0x3ff3, 0x00a3⟩
    bit3 := ⟨0x3ff8, 0x00b0⟩
    add1 := absent_pair, add2 := absent_pair
    addplus1 := absent_pair, addplus2 := absent_pair, add3 := absent_pair }

/-- slapstic 137412-108: Road Runner/Super Sprint (confirmed). -/
def slapstic108 : slapstic_data :=
  { bankstart := 3
    bank0 := 0x0028, bank1 := 0x002a, bank2 := 0x002c, bank3 := 0x002e
    alt1 := ⟨0x007f, 0x001f⟩, alt2 := ⟨0x3fff, 0x3772⟩
    alt3 := ⟨0x3ffc, 0x3764⟩, alt4 := ⟨0x3ff9, 0x0028⟩
    altshift := 0
    bit1 := ⟨0x3ff0, 0x0060⟩
    bit2c0 := ⟨0x3ff3, 0x0060⟩, bit2s0 := ⟨0x3ff3, 0x0061⟩
    bit2c1 := ⟨0x3ff3, 0x0062⟩, bit2s1 := ⟨0x3ff3, 0x0063⟩
    bit3 := ⟨0x3ff8, 0x0070⟩
    add1 := absent_pair, add2 := absent_pair
    addplus1 := absent_pair, addplus2 := absent_pair, add3 := absent_pair }

/-- slapstic 137412-109: Championship Sprint/Road Blasters (confirmed). -/
def slapstic109 : slapstic_data :=
  { bankstart := 3
    bank0 := 0x0008, bank1 := 0x000a, bank2 := 0x000c, bank3 := 0x000e
    alt1 := ⟨0x007f, 0x002b⟩, alt2 := ⟨0x3fff, 0x0052⟩
    alt3 := ⟨0x3ffc, 0x0064⟩, alt4 := ⟨0x3ff9, 0x0008⟩
    altshift := 0
    bit1 := ⟨0x3ff0, 0x3da0⟩
    bit2c0 := ⟨0x3ff3, 0x3da0⟩, bit2s0 := ⟨0x3ff3, 0x3da1⟩
    bit2c1 := ⟨0x3ff3, 0x3da2⟩, bit2s1 := ⟨0x3ff3, 0x3da3⟩
    bit3 := ⟨0x3ff8, 0x3db0⟩
    add1 := absent_pair, add2 := absent_pair
    addplus1 := absent_pair, addplus2 := absent_pair, add3 := absent_pair }

/-- slapstic 137412-110: Road Blasters/APB (confirmed). -/
def slapstic110 : slapstic_data :=
  { bankstart := 3
    bank0 := 0x0040, bank1 := 0x0050, bank2 := 0x0060, bank3 := 0x0070
    alt1 := ⟨0x007f, 0x002d⟩, alt2 := ⟨0x3fff, 0x3d14⟩
    alt3 := ⟨0x3ffc, 0x3d24⟩, alt4 := ⟨0x3fcf, 0x0040⟩
    altshift := 0
    bit1 := ⟨0x3ff0, 0x34c0⟩
    bit2c0 := ⟨0x3ff3, 0x34c0⟩, bit2s0 := ⟨0x3ff3, 0x34c1⟩
    bit2c1 := ⟨0x3ff3, 0x34c2⟩, bit2s1 := ⟨0x3ff3, 0x34c3⟩
    bit3 := ⟨0x3ff8, 0x34d0⟩
    add1 := absent_pair, add2 := absent_pair
    addplus1 := absent_pair, addplus2 := absent_pair, add3 := absent_pair }

/-- slapstic 137412-111: Pit Fighter (Aug 09, 1990 to Aug 22, 1990) (confirmed). -/
def slapstic111 : slapstic_data :=
  { bankstart := 0
    bank0 := 0x0042, bank1 := 0x0052, bank2 := 0x0062, bank3 := 0x0072
    alt1 := ⟨0x007f, 0x000a⟩, alt2 := ⟨0x3fff, 0x28a4⟩
    alt3 := ⟨0x0784, 0x0080⟩, alt4 := ⟨0x3fcf, 0x0042⟩
    altshift := 0
    bit1 := absent_pair
    bit2c0 := absent_pair, bit2s0 := absent_pair
    bit2c1 := absent_pair, bit2s1 := absent_pair
    bit3 := absent_pair
    add1 := ⟨0x3fff, 0x00a1⟩, add2 := ⟨0x3fff, 0x00a2⟩
    addplus1 := ⟨0x3c4f, 0x284d⟩, addplus2 := ⟨0x3a5f, 0x285d⟩
    add3 := ⟨0x3ff8, 0x2800⟩ }

/-- slapstic 137412-112: Pit Fighter (Aug 22, 1990 to Oct 01, 1990) (confirmed). -/
def slapstic112 : slapstic_data :=
  { bankstart := 0
    bank0 := 0x002c, bank1 := 0x003c, bank2 := 0x006c, bank3 := 0x007c
    alt1 := ⟨0x007f, 0x0014⟩, alt2 := ⟨0x3fff, 0x29a0⟩
    alt3 := ⟨0x0073, 0x0010⟩, alt4 := ⟨0x3faf, 0x002c⟩
    altshift := 2
    bit1 := absent_pair
    bit2c0 := absent_pair, bit2s0 := absent_pair
    bit2c1 := absent_pair, bit2s1 := absent_pair
    bit3 := absent_pair
    add1 := ⟨0x3fff, 0x2dce⟩, add2 := ⟨0x3fff, 0x2dcf⟩
    addplus1 := ⟨0x3def, 0x15e2⟩, addplus2 := ⟨0x3fbf, 0x15a2⟩
    add3 := ⟨0x3ffc, 0x1450⟩ }

/-- slapstic 137412-113: Pit Fighter (Oct 09, 1990 to Oct 12, 1990) (confirmed). -/
def slapstic113 : slapstic_data :=
  { bankstart := 0
    bank0 := 0x0008, bank1 := 0x0018, bank2 := 0x0028, bank3 := 0x0038
    alt1 := ⟨0x007f, 0x0059⟩, alt2 := ⟨0x3fff, 0x11a5⟩
    alt3 := ⟨0x0860, 0x0800⟩, alt4 := ⟨0x3fcf, 0x0008⟩
    altshift := 3
    bit1 := absent_pair
    bit2c0 := absent_pair, bit2s0 := absent_pair
    bit2c1 := absent_pair, bit2s1 := absent_pair
    bit3 := absent_pair
    add1 := ⟨0x3fff, 0x049b⟩, add2 := ⟨0x3fff, 0x049c⟩
    addplus1 := ⟨0x3fcf, 0x3ec7⟩, addplus2 := ⟨0x3edf, 0x3ed7⟩
    add3 := ⟨0x3fff, 0x3fb2⟩ }

/-- slapstic 137412-114: Pit Fighter (Nov 01, 1990 and later) (confirmed). -/
def slapstic114 : slapstic_data :=
  { bankstart := 0
    bank0 := 0x0040, bank1 := 0x0048, bank2 := 0x0050, bank3 := 0x0058
    alt1 := ⟨0x007f, 0x0016⟩, alt2 := ⟨0x3fff, 0x24de⟩
    alt3 := ⟨0x3871, 0x0000⟩, alt4 := ⟨0x3fe7, 0x0040⟩
    altshift := 1
    bit1 := absent_pair
    bit2c0 := absent_pair, bit2s0 := absent_pair
    bit2c1 := absent_pair, bit2s1 := absent_pair
    bit3 := absent_pair
    add1 := ⟨0x3fff, 0x0ab7⟩, add2 := ⟨0x3fff, 0x0ab8⟩
    addplus1 := ⟨0x3f63, 0x0d40⟩, addplus2 := ⟨0x3fd9, 0x0dc8⟩
    add3 := ⟨0x3fff, 0x0ab0⟩ }

/-- slapstic 137412-115: Race Drivin' DSK board (confirmed). -/
def slapstic115 : slapstic_data :=
  { bankstart := 0
    bank0 := 0x0020, bank1 := 0x0022, bank2 := 0x0024, bank3 := 0x0026
    alt1 := ⟨0x007f, 0x0054⟩, alt2 := ⟨0x3fff, 0x3e01⟩
    alt3 := ⟨0x3879, 0x0029⟩, alt4 := ⟨0x3ff9, 0x0020⟩
    altshift := 1
    bit1 := absent_pair
    bit2c0 := absent_pair, bit2s0 := absent_pair
    bit2c1 := absent_pair, bit2s1 := absent_pair
    bit3 := absent_pair
    add1 := ⟨0x3fff, 0x2591⟩, add2 := ⟨0x3fff, 0x2592⟩
    addplus1 := ⟨0x3fe6, 0x3402⟩, addplus2 := ⟨0x3fb4, 0x3410⟩
    add3 := ⟨0x3fff, 0x34a2⟩ }

/-- slapstic 137412-116: Hydra (confirmed). -/
def slapstic116 : slapstic_data :=
  { bankstart := 0
    bank0 := 0x0044, bank1 := 0x004c, bank2 := 0x0054, bank3 := 0x005c
    alt1 := ⟨0x007f, 0x0069⟩, alt2 := ⟨0x3fff, 0x2bab⟩
    alt3 := ⟨0x387c, 0x0808⟩, alt4 := ⟨0x3fe7, 0x0044⟩
    altshift := 0
    bit1 := absent_pair
    bit2c0 := absent_pair, bit2s0 := absent_pair
    bit2c1 := absent_pair, bit2s1 := absent_pair
    bit3 := absent_pair
    add1 := ⟨0x3fff, 0x3f7c⟩, add2 := ⟨0x3fff, 0x3f7d⟩
    addplus1 := ⟨0x3db2, 0x3c12⟩, addplus2 := ⟨0x3fe3, 0x3e43⟩
    add3 := ⟨0x3fff, 0x2ba8⟩ }

/-- slapstic 137412-117: Race Drivin' main board (confirmed). -/
def slapstic117 : slapstic_data :=
  { bankstart := 0
    bank0 := 0x0008, bank1 := 0x001a, bank2 := 0x002c, bank3 := 0x003e
    alt1 := ⟨0x007f, 0x007d⟩, alt2 := ⟨0x3fff, 0x3580⟩
    alt3 := ⟨0x0079, 0x0020⟩, alt4 := ⟨0x3fc9, 0x0008⟩
    altshift := 1
    bit1 := absent_pair
    bit2c0 := absent_pair, bit2s0 := absent_pair
    bit2c1 := absent_pair, bit2s1 := absent_pair
    bit3 := absent_pair
    add1 := ⟨0x3fff, 0x0676⟩, add2 := ⟨0x3fff, 0x0677⟩
    addplus1 := ⟨0x3e62, 0x1a42⟩, addplus2 := ⟨0x3e35, 0x1a11⟩
    add3 := ⟨0x3fff, 0x1a42⟩ }

/-- slapstic 137412-118: Rampart/Vindicators II (confirmed). -/
def slapstic118 : slapstic_data :=
  { bankstart := 0
    bank0 := 0x0014, bank1 := 0x0034, bank2 := 0x0054, bank3 := 0x0074
    alt1 := ⟨0x007f, 0x0002⟩, alt2 := ⟨0x3fff, 0x1950⟩
    alt3 := ⟨0x0067, 0x0020⟩, alt4 := ⟨0x3f9f, 0x0014⟩
    altshift := 3
    bit1 := absent_pair
    bit2c0 := absent_pair, bit2s0 := absent_pair
    bit2c1 := absent_pair, bit2s1 := absent_pair
    bit3 := absent_pair
    add1 := ⟨0x3fff, 0x1958⟩, add2 := ⟨0x3fff, 0x1959⟩
    addplus1 := ⟨0x3f73, 0x3052⟩, addplus2 := ⟨0x3f67, 0x3042⟩
    add3 := ⟨0x3ff8, 0x30e0⟩ }

/-- A concrete CPU view used to instantiate theorems on closed inputs:
68k mode, program counter 0, opcode word 0, all registers 0. -/
def cpu0 : cpu_view := ⟨true, 0, 0, fun _ => 0⟩

/-- An access that completes ("finalizes") one of the four protocols at the
given state: the simple bank select from ENABLED (with every
higher-priority family guard failing), the altTrigger4 match from
ALTERNATE3, or a bank-select address from BITWISE3 / ADDITIVE3.  These are
precisely the branches of `slapstic_tweak` that assign `current_bank`. -/
def finalizing (slap : slapstic_data) (st : slapstic_state) (a : Nat) : Bool :=
  if a = 0 then
    false
  else
    match st.state with
    | SlapState.ENABLED =>
      if MATCHES_MASK_VALUE a slap.bit1 then false
      else if MATCHES_MASK_VALUE a slap.add1 then false
      else if MATCHES_MASK_VALUE a slap.alt1 then false
      else if MATCHES_MASK_VALUE a slap.alt2 then false
      else decide (a = slap.bank0 ∨ a = slap.bank1 ∨
                   a = slap.bank2 ∨ a = slap.bank3)
    | SlapState.ALTERNATE3 => MATCHES_MASK_VALUE a slap.alt4
    | SlapState.BITWISE3 =>
      decide (a = slap.bank0 ∨ a = slap.bank1 ∨ a = slap.bank2 ∨ a = slap.bank3)
    | SlapState.ADDITIVE3 =>
      decide (a = slap.bank0 ∨ a = slap.bank1 ∨ a = slap.bank2 ∨ a = slap.bank3)
    | _ => false

/-- No access of the list finalizes a protocol, relative to the state the
machine is actually in when the access arrives. -/
def no_finalize (slap : slapstic_data) (cpu : cpu_view) :
    slapstic_state → List Nat → Bool
  | _, [] => true
  | st, a :: rest =>
      !finalizing slap st a &&
      no_finalize slap cpu (slapstic_tweak slap cpu st a) rest

/-- The bitwise family of a chip is fully present: all six pairs carry a
non-zero mask. -/
def family_present_bit (d : slapstic_data) : Bool :=
  d.bit1.mask != 0 && d.bit2c0.mask != 0 && d.bit2s0.mask != 0 &&
  d.bit2c1.mask != 0 && d.bit2s1.mask != 0 && d.bit3.mask != 0

/-- The bitwise family of a chip is fully absent: all six pairs carry a
zero mask. -/
def family_absent_bit (d : slapstic_data) : Bool :=
  d.bit1.mask == 0 && d.bit2c0.mask == 0 && d.bit2s0.mask == 0 &&
  d.bit2c1.mask == 0 && d.bit2s1.mask == 0 && d.bit3.mask == 0

/-- The additive family of a chip is fully present: all five pairs carry a
non-zero mask. -/
def family_present_add (d : slapstic_data) : Bool :=
  d.add1.mask != 0 && d.add2.mask != 0 && d.addplus1.mask != 0 &&
  d.addplus2.mask != 0 && d.add3.mask != 0

/-- The additive family of a chip is fully absent: all five pairs carry a
zero mask. -/
def family_absent_add (d : slapstic_data) : Bool :=
  d.add1.mask == 0 && d.add2.mask == 0 && d.addplus1.mask == 0 &&
  d.addplus2.mask == 0 && d.add3.mask == 0

/-- The scratch register `bit_xor` is 0 or 3 whenever the machine sits in
BITWISE2. -/
def bitxor_inv (st : slapstic_state) : Prop :=
  st.state = SlapState.BITWISE2 → st.bit_xor = 0 ∨ st.bit_xor = 3

instance (st : slapstic_state) : Decidable (bitxor_inv st) := by
  unfold bitxor_inv; infer_instance

/-- The master table, indexed by chip number minus 101; the `none` entry is
the never-observed chip 102 (`nullptr` in the source). -/
def slapstic_table : List (Option slapstic_data) :=
  [some slapstic101,
   none,
   some slapstic103,
   some slapstic104,
   some slapstic105,
   some slapstic106,
   some slapstic107,
   some slapstic108,
   some slapstic109,
   some slapstic110,
   some slapstic111,
   some slapstic112,
   some slapstic113,
   some slapstic114,
   some slapstic115,
   some slapstic116,
   some slapstic117,
   some slapstic118]

/-! ## Theorems -/

/-- The disambiguation kludge only ever yields ALTERNATE3, ENABLED, or
ALTERNATE2. -/
theorem alt2_kludge_cases (slap : slapstic_data) (cpu : cpu_view) (ab : Nat) :
    (alt2_kludge slap cpu ab).1 = SlapState.ALTERNATE3 ∨
    (alt2_kludge slap cpu ab).1 = SlapState.ENABLED ∨
    (alt2_kludge slap cpu ab).1 = SlapState.ALTERNATE2 := by
  unfold alt2_kludge
  repeat' split
  all_goals simp

/-- C1: for every chip configuration, CPU view and device state, an access at
address 0 sets the FSM state to ENABLED and leaves every other register,
`current_bank` included, unchanged; no guard of the state machine is
consulted. -/
theorem C1_zero_address_universal_reset (slap : slapstic_data) (cpu : cpu_view)
    (st : slapstic_state) :
    slapstic_tweak slap cpu st 0 = { st with state := SlapState.ENABLED } := by
  rfl

/-- C2: in state ENABLED, for every non-zero address, the guards fire in
priority order bitTrigger1, addTrigger1, altTrigger1, altTrigger2 (which
delegates to `alt2_kludge`, whose result becomes the new state and pending
alternate bank), then the four bank-select addresses (first index wins,
finalizing to DISABLED with `current_bank` set to that index), and
otherwise the access leaves the state entirely unchanged. -/
theorem C2_enabled_priority (slap : slapstic_data) (cpu : cpu_view)
    (st : slapstic_state) (a : Nat)
    (hs : st.state = SlapState.ENABLED) (ha : a ≠ 0) :
    (MATCHES_MASK_VALUE a slap.bit1 = true →
      slapstic_tweak slap cpu st a = { st with state := SlapState.BITWISE1 }) ∧
    (MATCHES_MASK_VALUE a slap.bit1 = false →
     MATCHES_MASK_VALUE a slap.add1 = true →
      slapstic_tweak slap cpu st a = { st with state := SlapState.ADDITIVE1 }) ∧
    (MATCHES_MASK_VALUE a slap.bit1 = false →
     MATCHES_MASK_VALUE a slap.add1 = false →
     MATCHES_MASK_VALUE a slap.alt1 = true →
      slapstic_tweak slap cpu st a = { st with state := SlapState.ALTERNATE1 }) ∧
    (MATCHES_MASK_VALUE a slap.bit1 = false →
     MATCHES_MASK_VALUE a slap.add1 = false →
     MATCHES_MASK_VALUE a slap.alt1 = false →
     MATCHES_MASK_VALUE a slap.alt2 = true →
      slapstic_tweak slap cpu st a =
        { st with state := (alt2_kludge slap cpu st.alt_bank).1,
                  alt_bank := (alt2_kludge slap cpu st.alt_bank).2 }) ∧
    (MATCHES_MASK_VALUE a slap.bit1 = false →
     MATCHES_MASK_VALUE a slap.add1 = false →
     MATCHES_MASK_VALUE a slap.alt1 = false →
     MATCHES_MASK_VALUE a slap.alt2 = false →
      (a = slap.bank0 →
        slapstic_tweak slap cpu st a =
          { st with state := SlapState.DISABLED, current_bank := 0 }) ∧
      (a ≠ slap.bank0 → a = slap.bank1 →
        slapstic_tweak slap cpu st a =
          { st with state := SlapState.DISABLED, current_bank := 1 }) ∧
      (a ≠ slap.bank0 → a ≠ slap.bank1 → a = slap.bank2 →
        slapstic_tweak slap cpu st a =
          { st with state := SlapState.DISABLED, current_bank := 2 }) ∧
      (a ≠ slap.bank0 → a ≠ slap.bank1 → a ≠ slap.bank2 → a = slap.bank3 →
        slapstic_tweak slap cpu st a =
          { st with state := SlapState.DISABLED, current_bank := 3 }) ∧
      (a ≠ slap.bank0 → a ≠ slap.bank1 → a ≠ slap.bank2 → a ≠ slap.bank3 →
        slapstic_tweak slap cpu st a = st)) := by
  refine ⟨?_, ?_, ?_, ?_, ?_⟩
  · intro h1
    simp [slapstic_tweak, hs, ha, h1]
  · intro h1 h2
    simp [slapstic_tweak, hs, ha, h1, h2]
  · intro h1 h2 h3
    simp [slapstic_tweak, hs, ha, h1, h2, h3]
  · intro h1 h2 h3 h4
    simp [slapstic_tweak, hs, ha, h1, h2, h3, h4]
  · intro h1 h2 h3 h4
    refine ⟨?_, ?_, ?_, ?_, ?_⟩ <;> intros <;>
      simp_all [slapstic_tweak, hs, ha, h1, h2, h3, h4]

/-- Witness for C2: chip 104, a BITWISE1 entry and a simple bank select at
concrete inputs. -/
theorem C2_enabled_priority_witness :
    slapstic_tweak slapstic104 cpu0 ⟨SlapState.ENABLED, 0, 0, 0, 0, 0⟩ 0x3d90 =
      ⟨SlapState.BITWISE1, 0, 0, 0, 0, 0⟩ ∧
    slapstic_tweak slapstic104 cpu0 ⟨SlapState.ENABLED, 0, 0, 0, 0, 0⟩ 0x28 =
      ⟨SlapState.DISABLED, 1, 0, 0, 0, 0⟩ := by
  constructor
  · exact (C2_enabled_priority slapstic104 cpu0 ⟨SlapState.ENABLED, 0, 0, 0, 0, 0⟩
      0x3d90 rfl (by decide)).1 (by decide)
  · exact (((C2_enabled_priority slapstic104 cpu0 ⟨SlapState.ENABLED, 0, 0, 0, 0, 0⟩
      0x28 rfl (by decide)).2.2.2.2 (by decide) (by decide) (by decide)
      (by decide)).2.1 (by decide) (by decide))

/-- C3 counterexample: on chip 105, the sequence 0, 0x35bd, 0x92, 0xa4, 0x10
satisfies every hypothesis of the claim — three consecutive non-zero
accesses matching altTrigger1, altTrigger2, altTrigger3, followed by an
altTrigger4 match — yet the final bank is 3, not
`(0xa4 >>> altshift) &&& 3 = 0`: the first address 0x35bd also matches
bitTrigger1, which has priority in ENABLED, so the machine enters the
bitwise protocol instead of the alternate one. -/
theorem C3_counterexample :
    MATCHES_MASK_VALUE 0x35bd slapstic105.alt1 = true ∧
    MATCHES_MASK_VALUE 0x92 slapstic105.alt2 = true ∧
    MATCHES_MASK_VALUE 0xa4 slapstic105.alt3 = true ∧
    MATCHES_MASK_VALUE 0x10 slapstic105.alt4 = true ∧
    (0xa4 >>> slapstic105.altshift) &&& 3 = 0 ∧
    (slapstic_run slapstic105 cpu0 (slapstic_init_state slapstic105)
        [0, 0x35bd, 0x92, 0xa4, 0x10]).current_bank = 3 := by
  decide

/-- Running a concatenated access list is running the two pieces in turn. -/
theorem slapstic_run_append (slap : slapstic_data) (cpu : cpu_view)
    (l1 l2 : List Nat) : ∀ st : slapstic_state,
    slapstic_run slap cpu st (l1 ++ l2) =
      slapstic_run slap cpu (slapstic_run slap cpu st l1) l2 := by
  induction l1 with
  | nil => intro st; rfl
  | cons a rest ih =>
    intro st
    rw [List.cons_append, slapstic_run, slapstic_run]
    exact ih _

/-- Once ALTERNATE3 has latched a pending bank, non-zero accesses keep the
machine in ALTERNATE3 with that pending bank, or finalize to DISABLED with
the bank written out; no non-zero access can destroy the latched value. -/
theorem alt3_wait (slap : slapstic_data) (cpu : cpu_view) (v : Nat)
    (mids : List Nat) :
    ∀ st : slapstic_state,
    (∀ m ∈ mids, m ≠ 0) →
    st.alt_bank = v →
    (st.state = SlapState.ALTERNATE3 ∨
      (st.state = SlapState.DISABLED ∧ st.current_bank = v)) →
    (slapstic_run slap cpu st mids).alt_bank = v ∧
    ((slapstic_run slap cpu st mids).state = SlapState.ALTERNATE3 ∨
      ((slapstic_run slap cpu st mids).state = SlapState.DISABLED ∧
       (slapstic_run slap cpu st mids).current_bank = v)) := by
  induction mids with
  | nil =>
    intro st _ hab hst
    exact ⟨hab, hst⟩
  | cons m rest ih =>
    intro st hm hab hst
    have hm0 : m ≠ 0 := hm m (List.mem_cons_self _ _)
    have hrest : ∀ x ∈ rest, x ≠ 0 := fun x hx => hm x (List.mem_cons_of_mem _ hx)
    rw [slapstic_run]
    rcases hst with h3 | ⟨hd, hbk⟩
    · by_cases h4 : MATCHES_MASK_VALUE m slap.alt4 = true
      · refine ih _ hrest ?_ (Or.inr ⟨?_, ?_⟩)
        · simp [slapstic_tweak, hm0, h3, h4, hab]
        · simp [slapstic_tweak, hm0, h3, h4]
        · simp [slapstic_tweak, hm0, h3, h4, hab]
      · have h4f : MATCHES_MASK_VALUE m slap.alt4 = false := by simpa using h4
        refine ih _ hrest ?_ (Or.inl ?_)
        · simp [slapstic_tweak, hm0, h3, h4f, hab]
        · simp [slapstic_tweak, hm0, h3, h4f]
    · refine ih _ hrest ?_ (Or.inr ⟨?_, ?_⟩)
      · simp [slapstic_tweak, hm0, hd, hab]
      · simp [slapstic_tweak, hm0, hd]
      · simp [slapstic_tweak, hm0, hd, hbk]

/-- C3 (amended): a single access not matching altTrigger2 (resp. altTrigger3)
aborts ALTERNATE1 (resp. ALTERNATE2) back to ENABLED with the bank
unchanged; and after 0 followed by three consecutive non-zero accesses
matching altTrigger1, altTrigger2, altTrigger3 — where, as the priority
order of ENABLED forces, the first of them must not match bitTrigger1 or
addTrigger1 — followed, possibly after further non-zero accesses, by an
access matching altTrigger4, the bank equals
`(third address >>> altShift) &&& 3`. -/
theorem C3_alternate_protocol_amended :
    (∀ (slap : slapstic_data) (cpu : cpu_view) (st : slapstic_state) (a : Nat),
      st.state = SlapState.ALTERNATE1 →
      MATCHES_MASK_VALUE a slap.alt2 = false →
      slapstic_tweak slap cpu st a = { st with state := SlapState.ENABLED }) ∧
    (∀ (slap : slapstic_data) (cpu : cpu_view) (st : slapstic_state) (a : Nat),
      st.state = SlapState.ALTERNATE2 →
      MATCHES_MASK_VALUE a slap.alt3 = false →
      slapstic_tweak slap cpu st a = { st with state := SlapState.ENABLED }) ∧
    (∀ (slap : slapstic_data) (cpu : cpu_view) (st : slapstic_state)
       (a1 a2 a3 a4 : Nat) (mids : List Nat),
      MATCHES_MASK_VALUE a1 slap.bit1 = false →
      MATCHES_MASK_VALUE a1 slap.add1 = false →
      MATCHES_MASK_VALUE a1 slap.alt1 = true →
      MATCHES_MASK_VALUE a2 slap.alt2 = true →
      MATCHES_MASK_VALUE a3 slap.alt3 = true →
      MATCHES_MASK_VALUE a4 slap.alt4 = true →
      a1 ≠ 0 → a2 ≠ 0 → a3 ≠ 0 → a4 ≠ 0 → (∀ m ∈ mids, m ≠ 0) →
      (slapstic_run slap cpu st
          ([0, a1, a2, a3] ++ mids ++ [a4])).current_bank =
        (a3 >>> slap.altshift) &&& 3) := by
  refine ⟨?_, ?_, ?_⟩
  · intro slap cpu st a hs h2
    by_cases h0 : a = 0
    · subst h0; rfl
    · simp [slapstic_tweak, h0, hs, h2]
  · intro slap cpu st a hs h3
    by_cases h0 : a = 0
    · subst h0; rfl
    · simp [slapstic_tweak, h0, hs, h3]
  · intro slap cpu st a1 a2 a3 a4 mids hb1 had1 halt1 halt2 halt3 halt4
      h1 h2 h3 h4 hmids
    have hl : [0, a1, a2, a3] ++ mids ++ [a4] =
        0 :: a1 :: a2 :: a3 :: (mids ++ [a4]) := rfl
    rw [hl, slapstic_run]
    rw [show slapstic_tweak slap cpu st 0 = { st with state := SlapState.ENABLED }
        from rfl]
    rw [slapstic_run]
    rw [show slapstic_tweak slap cpu { st with state := SlapState.ENABLED } a1 =
        { st with state := SlapState.ALTERNATE1 } by
      simp [slapstic_tweak, h1, hb1, had1, halt1]]
    rw [slapstic_run]
    rw [show slapstic_tweak slap cpu { st with state := SlapState.ALTERNATE1 } a2 =
        { st with state := SlapState.ALTERNATE2 } by
      simp [slapstic_tweak, h2, halt2]]
    rw [slapstic_run]
    rw [show slapstic_tweak slap cpu { st with state := SlapState.ALTERNATE2 } a3 =
        { st with state := SlapState.ALTERNATE3,
                  alt_bank := (a3 >>> slap.altshift) &&& 3 } by
      simp [slapstic_tweak, h3, halt3]]
    rw [slapstic_run_append]
    obtain ⟨hA, hB⟩ := alt3_wait slap cpu ((a3 >>> slap.altshift) &&& 3) mids
      { st with state := SlapState.ALTERNATE3,
                alt_bank := (a3 >>> slap.altshift) &&& 3 }
      hmids rfl (Or.inl rfl)
    rw [slapstic_run, slapstic_run]
    rcases hB with hst | ⟨hst, hbk⟩
    · simp [slapstic_tweak, h4, hst, halt4, hA]
    · simp [slapstic_tweak, h4, hst, hbk]

/-- Witness for C3 (amended): chip 103 with an abort from ALTERNATE1 and a
full alternate sequence carrying one extra access inside the ALTERNATE3
wait. -/
theorem C3_alternate_protocol_amended_witness :
    slapstic_tweak slapstic103 cpu0 ⟨SlapState.ALTERNATE1, 2, 0, 0, 0, 0⟩ 5 =
      ⟨SlapState.ENABLED, 2, 0, 0, 0, 0⟩ ∧
    (slapstic_run slapstic103 cpu0 (slapstic_init_state slapstic103)
        ([0, 0x2d, 0x3d14, 0x3d24] ++ [0x1111] ++ [0x40])).current_bank = 0 := by
  constructor
  · exact C3_alternate_protocol_amended.1 slapstic103 cpu0
      ⟨SlapState.ALTERNATE1, 2, 0, 0, 0, 0⟩ 5 rfl (by decide)
  · have h := C3_alternate_protocol_amended.2.2 slapstic103 cpu0
      (slapstic_init_state slapstic103) 0x2d 0x3d14 0x3d24 0x40 [0x1111]
      (by decide) (by decide) (by decide) (by decide) (by decide) (by decide)
      (by decide) (by decide) (by decide) (by decide) (by decide)
    rw [h]
    decide

/-- C4 counterexample: on chip 104, for b = 0 and any = 0 the claimed sequence
(with bitTrigger1-address 0x3d90, bankSelectAddress[0] = 0x20,
bitSet0-address 0x3d91, bitTrigger3-address 0x3da0), run from the
post-reset state (DISABLED, bank 3), ends with `current_bank = 3`, not
`0 ||| 1 = 1`: the bank-select access taken in BITWISE1 merely arms the
bitwise state and latches the *current* bank; it does not select bank b. -/
theorem C4_counterexample :
    MATCHES_MASK_VALUE 0x3d90 slapstic104.bit1 = true ∧
    slapstic104.bank 0 = 0x20 ∧
    MATCHES_MASK_VALUE 0x3d91 slapstic104.bit2s0 = true ∧
    MATCHES_MASK_VALUE 0x3da0 slapstic104.bit3 = true ∧
    (slapstic_run slapstic104 cpu0 (slapstic_init_state slapstic104)
        [0, 0x3d90, 0x20, 0x3d91, 0x3da0, 0x20]).current_bank = 3 ∧
    (0 : Nat) ||| 1 = 1 := by
  decide

/-- For chip 104's masks: an address matching the bitTrigger3 escape pair
(mask 0x3ff8, target 0x3da0), XORed with 3, cannot match a twiddle pair
whose target sits in the 0x3d90 row (mask 0x3ff3). -/
theorem chip104_escape_no_twiddle (x v : Nat)
    (hx : x &&& 0x3ff8 = 0x3da0) (hv : v &&& 0x3ff0 = 0x3d90) :
    (x ^^^ 3) &&& 0x3ff3 ≠ v := by
  intro he
  have h1 : ((x ^^^ 3) &&& 0x3ff3) &&& 0x3ff0 = v &&& 0x3ff0 := by rw [he]
  rw [Nat.and_assoc,
      show (0x3ff3 : Nat) &&& 0x3ff0 = 0x3ff0 from by decide,
      Nat.and_xor_distrib_right,
      show (3 : Nat) &&& 0x3ff0 = 0 from by decide, Nat.xor_zero] at h1
  have h2 : x &&& 0x3ff0 = 0x3da0 := by
    have h3 : x &&& 0x3ff8 &&& 0x3ff0 = 0x3da0 &&& 0x3ff0 := by rw [hx]
    rw [Nat.and_assoc,
        show (0x3ff8 : Nat) &&& 0x3ff0 = 0x3ff0 from by decide,
        show (0x3da0 : Nat) &&& 0x3ff0 = 0x3da0 from by decide] at h3
    exact h3
  rw [h2, hv] at h1
  exact absurd h1 (by decide)

/-- C4 (amended): on chip 104, for every b and any in {0,1,2,3} and every
starting bank value c, from DISABLED the sequence
[0, bitTrigger1-address, bankSelectAddress[b], bitSet0-address,
bitTrigger3-address, bankSelectAddress[any]] leaves
`current_bank = c ||| 1` — the bank register at the start of the sequence
with bit 0 set.  The bankSelectAddress[b] access inside BITWISE1 only arms
the bitwise state, latching the current bank; it does not select bank b,
so the claimed value `b ||| 1` is reached only when c = b. -/
theorem C4_bitwise_toggle_amended (b any : Fin 4)
    (c alt bit add bx : Nat) (cpu : cpu_view) (a1 a3 a4 : Nat)
    (h1 : MATCHES_MASK_VALUE a1 slapstic104.bit1 = true)
    (h3 : MATCHES_MASK_VALUE a3 slapstic104.bit2s0 = true)
    (h4 : MATCHES_MASK_VALUE a4 slapstic104.bit3 = true) :
    (slapstic_run slapstic104 cpu
        ⟨SlapState.DISABLED, c, alt, bit, add, bx⟩
        [0, a1, slapstic104.bank b, a3, a4, slapstic104.bank any]).current_bank
      = c ||| 1 := by
  have e1 : a1 &&& 0x3ff0 = 0x3d90 := by
    simpa [MATCHES_MASK_VALUE, slapstic104] using h1
  have e3 : a3 &&& 0x3ff3 = 0x3d91 := by
    simpa [MATCHES_MASK_VALUE, slapstic104] using h3
  have e4 : a4 &&& 0x3ff8 = 0x3da0 := by
    simpa [MATCHES_MASK_VALUE, slapstic104] using h4
  have ha1 : a1 ≠ 0 := by
    intro h; rw [h] at e1; exact absurd e1 (by decide)
  have ha3 : a3 ≠ 0 := by
    intro h; rw [h] at e3; exact absurd e3 (by decide)
  have ha4 : a4 ≠ 0 := by
    intro h; rw [h] at e4; exact absurd e4 (by decide)
  have hmem1 : slapstic104.bank b = slapstic104.bank0 ∨
      slapstic104.bank b = slapstic104.bank1 ∨
      slapstic104.bank b = slapstic104.bank2 ∨
      slapstic104.bank b = slapstic104.bank3 := by
    fin_cases b <;> simp [slapstic_data.bank]
  have hbne1 : slapstic104.bank b ≠ 0 := by
    fin_cases b <;> decide
  have hmem2 : slapstic104.bank any = slapstic104.bank0 ∨
      slapstic104.bank any = slapstic104.bank1 ∨
      slapstic104.bank any = slapstic104.bank2 ∨
      slapstic104.bank any = slapstic104.bank3 := by
    fin_cases any <;> simp [slapstic_data.bank]
  have hbne2 : slapstic104.bank any ≠ 0 := by
    fin_cases any <;> decide
  have hc0 : MATCHES_MASK_VALUE a3 slapstic104.bit2c0 = false := by
    simp [MATCHES_MASK_VALUE, slapstic104, e3]
  have hs0 : MATCHES_MASK_VALUE a3 slapstic104.bit2s0 = true := by
    simp [MATCHES_MASK_VALUE, slapstic104, e3]
  have hn0 : MATCHES_MASK_VALUE (a4 ^^^ 3) slapstic104.bit2c0 = false := by
    simp [MATCHES_MASK_VALUE, slapstic104,
      chip104_escape_no_twiddle a4 0x3d90 e4 (by decide)]
  have hn1 : MATCHES_MASK_VALUE (a4 ^^^ 3) slapstic104.bit2s0 = false := by
    simp [MATCHES_MASK_VALUE, slapstic104,
      chip104_escape_no_twiddle a4 0x3d91 e4 (by decide)]
  have hn2 : MATCHES_MASK_VALUE (a4 ^^^ 3) slapstic104.bit2c1 = false := by
    simp [MATCHES_MASK_VALUE, slapstic104,
      chip104_escape_no_twiddle a4 0x3d92 e4 (by decide)]
  have hn3 : MATCHES_MASK_VALUE (a4 ^^^ 3) slapstic104.bit2s1 = false := by
    simp [MATCHES_MASK_VALUE, slapstic104,
      chip104_escape_no_twiddle a4 0x3d93 e4 (by decide)]
  rw [slapstic_run]
  rw [show slapstic_tweak slapstic104 cpu
      ⟨SlapState.DISABLED, c, alt, bit, add, bx⟩ 0 =
      ⟨SlapState.ENABLED, c, alt, bit, add, bx⟩ from rfl]
  rw [slapstic_run]
  rw [show slapstic_tweak slapstic104 cpu
      ⟨SlapState.ENABLED, c, alt, bit, add, bx⟩ a1 =
      ⟨SlapState.BITWISE1, c, alt, bit, add, bx⟩ by
    simp [slapstic_tweak, ha1, h1]]
  rw [slapstic_run]
  rw [show slapstic_tweak slapstic104 cpu
      ⟨SlapState.BITWISE1, c, alt, bit, add, bx⟩ (slapstic104.bank b) =
      ⟨SlapState.BITWISE2, c, alt, c, add, 0⟩ by
    simp [slapstic_tweak, hbne1, hmem1]]
  rw [slapstic_run]
  rw [show slapstic_tweak slapstic104 cpu
      ⟨SlapState.BITWISE2, c, alt, c, add, 0⟩ a3 =
      ⟨SlapState.BITWISE2, c, alt, c ||| 1, add, 3⟩ by
    simp [slapstic_tweak, ha3, hc0, hs0]]
  rw [slapstic_run]
  rw [show slapstic_tweak slapstic104 cpu
      ⟨SlapState.BITWISE2, c, alt, c ||| 1, add, 3⟩ a4 =
      ⟨SlapState.BITWISE3, c, alt, c ||| 1, add, 3⟩ by
    simp [slapstic_tweak, ha4, hn0, hn1, hn2, hn3, h4]]
  rw [slapstic_run]
  rw [show slapstic_tweak slapstic104 cpu
      ⟨SlapState.BITWISE3, c, alt, c ||| 1, add, 3⟩ (slapstic104.bank any) =
      ⟨SlapState.DISABLED, c ||| 1, alt, c ||| 1, add, 3⟩ by
    simp [slapstic_tweak, hbne2, hmem2]]
  rfl

/-- Witness for C4 (amended): b = 1, any = 2, starting bank 2; the sequence
ends at bank 2 ||| 1 = 3. -/
theorem C4_bitwise_toggle_amended_witness :
    (slapstic_run slapstic104 cpu0
        ⟨SlapState.DISABLED, 2, 0, 0, 0, 0⟩
        [0, 0x3d90, slapstic104.bank 1, 0x3d91, 0x3da0,
         slapstic104.bank 2]).current_bank = 2 ||| 1 :=
  C4_bitwise_toggle_amended 1 2 2 0 0 0 0 cpu0 0x3d90 0x3d91 0x3da0
    (by decide) (by decide) (by decide)

/-- C5: the mask/value matcher returns true exactly when the mask is non-zero
and the masked address equals the target; a zero-mask pair never matches,
and consequently chip 111 — whose bitwise family is absent — can never
move from ENABLED into BITWISE1. -/
theorem C5_mask_value_matcher (a : Nat) (mv : mask_value) :
    (MATCHES_MASK_VALUE a mv = true ↔ mv.mask ≠ 0 ∧ a &&& mv.mask = mv.value) ∧
    (∀ v : Nat, MATCHES_MASK_VALUE a ⟨0, v⟩ = false) ∧
    (∀ (cpu : cpu_view) (st : slapstic_state),
      st.state = SlapState.ENABLED →
      (slapstic_tweak slapstic111 cpu st a).state ≠ SlapState.BITWISE1) := by
  refine ⟨?_, ?_, ?_⟩
  · simp [MATCHES_MASK_VALUE, and_comm]
  · intro v
    simp [MATCHES_MASK_VALUE]
  · intro cpu st hs
    by_cases h0 : a = 0
    · subst h0
      simp [slapstic_tweak]
    · have hb : MATCHES_MASK_VALUE a slapstic111.bit1 = false := by
        simp [MATCHES_MASK_VALUE, slapstic111, absent_pair]
      have hk := alt2_kludge_cases slapstic111 cpu st.alt_bank
      simp only [slapstic_tweak, hs, h0, if_false, hb, Bool.false_eq_true,
        ite_false]
      split_ifs <;>
        solve
          | simp_all
          | (rcases hk with h | h | h <;> simp [h])

/-- Witness for C5: on chip 111, 0x00a1 matches the additive trigger, a
zero-mask pair rejects it, and a non-zero access from ENABLED does not
reach BITWISE1. -/
theorem C5_mask_value_matcher_witness :
    MATCHES_MASK_VALUE 0x00a1 slapstic111.add1 = true ∧
    MATCHES_MASK_VALUE 0x00a1 ⟨0, 0x00a1⟩ = false ∧
    (slapstic_tweak slapstic111 cpu0 ⟨SlapState.ENABLED, 0, 0, 0, 0, 0⟩
        5).state ≠ SlapState.BITWISE1 := by
  refine ⟨?_, ?_, ?_⟩
  · exact (C5_mask_value_matcher 0x00a1 slapstic111.add1).1.mpr
      ⟨by decide, by decide⟩
  · exact (C5_mask_value_matcher 0x00a1 slapstic111.add1).2.1 0x00a1
  · exact (C5_mask_value_matcher 5 slapstic111.add1).2.2 cpu0
      ⟨SlapState.ENABLED, 0, 0, 0, 0, 0⟩ rfl

/-- C6: chip 111 has starting bank 0, bank-select addresses
0x42/0x52/0x62/0x72 and the stated additive pairs, and from the post-reset
state the access sequence [0, 0x00a1, 0x00a2, 0x284d, 0x2800, 0x52] leaves
`current_bank = 1`: the additive protocol is armed, bumped once by the
addPlus1 match, escaped, and finalized at bank index 1. -/
theorem C6_additive_trace_chip111 :
    slapstic111.bankstart = 0 ∧
    slapstic111.bank0 = 0x42 ∧ slapstic111.bank1 = 0x52 ∧
    slapstic111.bank2 = 0x62 ∧ slapstic111.bank3 = 0x72 ∧
    slapstic111.add1 = ⟨0x3fff, 0x00a1⟩ ∧
    slapstic111.add2 = ⟨0x3fff, 0x00a2⟩ ∧
    slapstic111.addplus1 = ⟨0x3c4f, 0x284d⟩ ∧
    slapstic111.add3 = ⟨0x3ff8, 0x2800⟩ ∧
    (slapstic_run slapstic111 cpu0 (slapstic_init_state slapstic111)
        [0, 0x00a1, 0x00a2, 0x284d, 0x2800, 0x52]).current_bank = 1 := by
  decide

/-- C7: in ADDITIVE2, the addPlus1, addPlus2 and escape guards are evaluated
independently and non-exclusively on the same non-zero access: a double
match adds 3 modulo 4 to the pending additive bank, the escape match moves
the state to ADDITIVE3 whatever else fires, and a single plus match adds
its own increment modulo 4. -/
theorem C7_additive2_nonexclusive (slap : slapstic_data) (cpu : cpu_view)
    (st : slapstic_state) (a : Nat)
    (hs : st.state = SlapState.ADDITIVE2) (ha : a ≠ 0) :
    (MATCHES_MASK_VALUE a slap.addplus1 = true →
     MATCHES_MASK_VALUE a slap.addplus2 = true →
      (slapstic_tweak slap cpu st a).add_bank = (st.add_bank + 3) % 4) ∧
    (MATCHES_MASK_VALUE a slap.add3 = true →
      (slapstic_tweak slap cpu st a).state = SlapState.ADDITIVE3) ∧
    (MATCHES_MASK_VALUE a slap.addplus1 = true →
     MATCHES_MASK_VALUE a slap.addplus2 = false →
      (slapstic_tweak slap cpu st a).add_bank = (st.add_bank + 1) % 4) ∧
    (MATCHES_MASK_VALUE a slap.addplus1 = false →
     MATCHES_MASK_VALUE a slap.addplus2 = true →
      (slapstic_tweak slap cpu st a).add_bank = (st.add_bank + 2) % 4) := by
  have hmod : ∀ x : Nat, x &&& 3 = x % 4 := fun x =>
    Nat.and_pow_two_sub_one_eq_mod x 2
  refine ⟨?_, ?_, ?_, ?_⟩
  · intro hp1 hp2
    by_cases h3 : MATCHES_MASK_VALUE a slap.add3 = true
    · simp [slapstic_tweak, hs, ha, hp1, hp2, h3, hmod]
    · simp only [Bool.not_eq_true] at h3
      simp [slapstic_tweak, hs, ha, hp1, hp2, h3, hmod]
  · intro h3
    by_cases hp1 : MATCHES_MASK_VALUE a slap.addplus1 = true <;>
      by_cases hp2 : MATCHES_MASK_VALUE a slap.addplus2 = true <;>
        simp_all [slapstic_tweak, hs, ha]
  · intro hp1 hp2
    by_cases h3 : MATCHES_MASK_VALUE a slap.add3 = true
    · simp [slapstic_tweak, hs, ha, hp1, hp2, h3, hmod]
    · simp only [Bool.not_eq_true] at h3
      simp [slapstic_tweak, hs, ha, hp1, hp2, h3, hmod]
  · intro hp1 hp2
    by_cases h3 : MATCHES_MASK_VALUE a slap.add3 = true
    · simp [slapstic_tweak, hs, ha, hp1, hp2, h3, hmod]
    · simp only [Bool.not_eq_true] at h3
      simp [slapstic_tweak, hs, ha, hp1, hp2, h3, hmod]

/-- Witness for C7: on chip 111, address 0x285d matches both plus pairs and
bumps the pending bank from 2 to (2 + 3) % 4 = 1, and address 0x2800
matches the escape and moves ADDITIVE2 to ADDITIVE3. -/
theorem C7_additive2_nonexclusive_witness :
    (slapstic_tweak slapstic111 cpu0 ⟨SlapState.ADDITIVE2, 0, 0, 0, 2, 0⟩
        0x285d).add_bank = 1 ∧
    (slapstic_tweak slapstic111 cpu0 ⟨SlapState.ADDITIVE2, 0, 0, 0, 2, 0⟩
        0x2800).state = SlapState.ADDITIVE3 := by
  constructor
  · have h := (C7_additive2_nonexclusive slapstic111 cpu0
      ⟨SlapState.ADDITIVE2, 0, 0, 0, 2, 0⟩ 0x285d rfl (by decide)).1
      (by decide) (by decide)
    simpa using h
  · exact (C7_additive2_nonexclusive slapstic111 cpu0
      ⟨SlapState.ADDITIVE2, 0, 0, 0, 2, 0⟩ 0x2800 rfl (by decide)).2.1
      (by decide)

/-- A non-finalizing access never changes the current bank. -/
theorem tweak_bank_of_not_finalizing (slap : slapstic_data) (cpu : cpu_view)
    (st : slapstic_state) (a : Nat) (h : finalizing slap st a = false) :
    (slapstic_tweak slap cpu st a).current_bank = st.current_bank := by
  by_cases h0 : a = 0
  · subst h0; rfl
  · cases hst : st.state <;>
      simp only [slapstic_tweak, finalizing, hst, if_neg h0] at h ⊢ <;>
      first
        | rfl
        | (split_ifs at h ⊢ <;> simp_all)

/-- A finalizing access always lands in DISABLED. -/
theorem tweak_disabled_of_finalizing (slap : slapstic_data) (cpu : cpu_view)
    (st : slapstic_state) (a : Nat) (h : finalizing slap st a = true) :
    (slapstic_tweak slap cpu st a).state = SlapState.DISABLED := by
  by_cases h0 : a = 0
  · subst h0; simp [finalizing] at h
  · cases hst : st.state <;>
      simp only [slapstic_tweak, finalizing, hst, if_neg h0] at h ⊢ <;>
      solve
        | simp_all
        | (split_ifs at h ⊢ <;> simp_all)

/-- C8: an access that changes `current_bank` is necessarily one of the four
finalizing transitions (simple select from ENABLED, altTrigger4 from
ALTERNATE3, bank select from BITWISE3 or ADDITIVE3), and it simultaneously
sets the state to DISABLED; consequently, over any access sequence in
which no access finalizes a protocol, `current_bank` is preserved. -/
theorem C8_bank_persistence :
    (∀ (slap : slapstic_data) (cpu : cpu_view) (st : slapstic_state) (a : Nat),
      (slapstic_tweak slap cpu st a).current_bank ≠ st.current_bank →
      finalizing slap st a = true ∧
      (slapstic_tweak slap cpu st a).state = SlapState.DISABLED) ∧
    (∀ (slap : slapstic_data) (cpu : cpu_view) (st : slapstic_state)
       (l : List Nat),
      no_finalize slap cpu st l = true →
      (slapstic_run slap cpu st l).current_bank = st.current_bank) := by
  constructor
  · intro slap cpu st a hne
    have hf : finalizing slap st a = true := by
      by_contra hc
      exact hne (tweak_bank_of_not_finalizing slap cpu st a (by simpa using hc))
    exact ⟨hf, tweak_disabled_of_finalizing slap cpu st a hf⟩
  · intro slap cpu st l
    induction l generalizing st with
    | nil =>
      intro _
      rfl
    | cons x rest ih =>
      intro hnf
      simp only [no_finalize, Bool.and_eq_true, Bool.not_eq_true'] at hnf
      obtain ⟨hf, hrest⟩ := hnf
      rw [slapstic_run, ih _ hrest]
      exact tweak_bank_of_not_finalizing slap cpu st x hf

/-- Witness for C8: chip 103 from reset, three accesses (an ignored one, the
universal reset, an unrelated one in ENABLED) leave the bank untouched. -/
theorem C8_bank_persistence_witness :
    (slapstic_run slapstic103 cpu0 (slapstic_init_state slapstic103)
        [5, 0, 7]).current_bank =
      (slapstic_init_state slapstic103).current_bank :=
  C8_bank_persistence.2 slapstic103 cpu0 (slapstic_init_state slapstic103)
    [5, 0, 7] (by decide)

/-- C9: the master table has its 18 slots (one per identifier 101..118, with
the never-seen 102 empty), and every present chip configuration carries
exactly one protocol family: the bitwise pairs all present and the
additive pairs all absent, or the other way round — never both, never
neither. -/
theorem C9_exactly_one_family :
    slapstic_table.length = 18 ∧
    slapstic_table.all (fun o =>
      match o with
      | none => true
      | some d =>
        (family_present_bit d && family_absent_add d) ||
        (family_absent_bit d && family_present_add d)) = true := by
  decide

/-- One access preserves the BITWISE2 invariant `bit_xor ∈ {0, 3}`. -/
theorem bitxor_inv_step (slap : slapstic_data) (cpu : cpu_view)
    (st : slapstic_state) (a : Nat) (h : bitxor_inv st) :
    bitxor_inv (slapstic_tweak slap cpu st a) := by
  intro h2
  by_cases h0 : a = 0
  · rw [h0] at h2
    exact absurd h2 (by simp [slapstic_tweak])
  · have hk := alt2_kludge_cases slap cpu st.alt_bank
    cases hst : st.state <;>
      simp only [slapstic_tweak, hst, if_neg h0] at h2 ⊢ <;>
      solve
        | simp_all
        | (split_ifs at h2 ⊢ <;>
            solve
              | simp_all
              | (rcases hk with hkk | hkk | hkk <;> simp_all)
              | (rcases h hst with hx | hx <;> rw [hx] <;> simp))

/-- The BITWISE2 invariant `bit_xor ∈ {0, 3}` is preserved by whole runs. -/
theorem bitxor_inv_run (slap : slapstic_data) (cpu : cpu_view)
    (l : List Nat) : ∀ st : slapstic_state, bitxor_inv st →
    bitxor_inv (slapstic_run slap cpu st l) := by
  induction l with
  | nil => intro st h; exact h
  | cons a rest ih =>
    intro st h
    exact ih _ (bitxor_inv_step slap cpu st a h)

/-- C10: `bit_xor` is set to 0 on every entry into BITWISE2 from BITWISE1; in
BITWISE2 a non-zero access flips it by XOR 3 exactly when one of the four
twiddle pairs matches the pre-XORed address, and leaves it unchanged when
none does; no state other than BITWISE1 and BITWISE2 modifies it; hence
along any run, whenever the machine sits in BITWISE2, `bit_xor` is 0 or
3. -/
theorem C10_bitxor_zero_or_three :
    (∀ (slap : slapstic_data) (cpu : cpu_view) (st : slapstic_state) (a : Nat),
      st.state = SlapState.BITWISE1 →
      (slapstic_tweak slap cpu st a).state = SlapState.BITWISE2 →
      (slapstic_tweak slap cpu st a).bit_xor = 0) ∧
    (∀ (slap : slapstic_data) (cpu : cpu_view) (st : slapstic_state) (a : Nat),
      st.state = SlapState.BITWISE2 → a ≠ 0 →
      (MATCHES_MASK_VALUE (a ^^^ st.bit_xor) slap.bit2c0 = true ∨
       MATCHES_MASK_VALUE (a ^^^ st.bit_xor) slap.bit2s0 = true ∨
       MATCHES_MASK_VALUE (a ^^^ st.bit_xor) slap.bit2c1 = true ∨
       MATCHES_MASK_VALUE (a ^^^ st.bit_xor) slap.bit2s1 = true) →
      (slapstic_tweak slap cpu st a).bit_xor = st.bit_xor ^^^ 3) ∧
    (∀ (slap : slapstic_data) (cpu : cpu_view) (st : slapstic_state) (a : Nat),
      st.state = SlapState.BITWISE2 → a ≠ 0 →
      MATCHES_MASK_VALUE (a ^^^ st.bit_xor) slap.bit2c0 = false →
      MATCHES_MASK_VALUE (a ^^^ st.bit_xor) slap.bit2s0 = false →
      MATCHES_MASK_VALUE (a ^^^ st.bit_xor) slap.bit2c1 = false →
      MATCHES_MASK_VALUE (a ^^^ st.bit_xor) slap.bit2s1 = false →
      (slapstic_tweak slap cpu st a).bit_xor = st.bit_xor) ∧
    (∀ (slap : slapstic_data) (cpu : cpu_view) (st : slapstic_state) (a : Nat),
      st.state ≠ SlapState.BITWISE1 → st.state ≠ SlapState.BITWISE2 →
      (slapstic_tweak slap cpu st a).bit_xor = st.bit_xor) ∧
    (∀ (slap : slapstic_data) (cpu : cpu_view) (st : slapstic_state)
       (l : List Nat),
      bitxor_inv st → bitxor_inv (slapstic_run slap cpu st l)) := by
  refine ⟨?_, ?_, ?_, ?_, ?_⟩
  · intro slap cpu st a hs h2
    by_cases h0 : a = 0
    · rw [h0] at h2
      exact absurd h2 (by simp [slapstic_tweak])
    · simp only [slapstic_tweak, hs, if_neg h0] at h2 ⊢
      split_ifs at h2 ⊢ <;> simp_all
  · intro slap cpu st a hs ha hm
    by_cases hc0 : MATCHES_MASK_VALUE (a ^^^ st.bit_xor) slap.bit2c0 = true
    · simp [slapstic_tweak, hs, ha, hc0]
    · have hc0f : MATCHES_MASK_VALUE (a ^^^ st.bit_xor) slap.bit2c0 = false := by
        simpa using hc0
      by_cases hs0 : MATCHES_MASK_VALUE (a ^^^ st.bit_xor) slap.bit2s0 = true
      · simp [slapstic_tweak, hs, ha, hc0f, hs0]
      · have hs0f : MATCHES_MASK_VALUE (a ^^^ st.bit_xor) slap.bit2s0 = false := by
          simpa using hs0
        by_cases hc1 : MATCHES_MASK_VALUE (a ^^^ st.bit_xor) slap.bit2c1 = true
        · simp [slapstic_tweak, hs, ha, hc0f, hs0f, hc1]
        · have hc1f : MATCHES_MASK_VALUE (a ^^^ st.bit_xor) slap.bit2c1 = false := by
            simpa using hc1
          by_cases hs1 : MATCHES_MASK_VALUE (a ^^^ st.bit_xor) slap.bit2s1 = true
          · simp [slapstic_tweak, hs, ha, hc0f, hs0f, hc1f, hs1]
          · rcases hm with h | h | h | h <;> simp_all
  · intro slap cpu st a hs ha hc0 hs0 hc1 hs1
    by_cases h3 : MATCHES_MASK_VALUE a slap.bit3 = true
    · simp [slapstic_tweak, hs, ha, hc0, hs0, hc1, hs1, h3]
    · have h3f : MATCHES_MASK_VALUE a slap.bit3 = false := by simpa using h3
      simp [slapstic_tweak, hs, ha, hc0, hs0, hc1, hs1, h3f]
  · intro slap cpu st a hn1 hn2
    by_cases h0 : a = 0
    · rw [h0]
      rfl
    · cases hst : st.state <;>
        solve
          | exact absurd hst hn1
          | exact absurd hst hn2
          | simp [slapstic_tweak, hst, h0]
          | (simp only [slapstic_tweak, hst, if_neg h0]
             split_ifs <;> rfl)
  · intro slap cpu st l hinv
    exact bitxor_inv_run slap cpu l st hinv

/-- Witness for C10: on chip 104, a BITWISE2 entry zeroes `bit_xor`, a
twiddle hit at `bit_xor = 3` flips it back to 0, and the invariant holds
after a concrete run. -/
theorem C10_bitxor_zero_or_three_witness :
    (slapstic_tweak slapstic104 cpu0 ⟨SlapState.BITWISE1, 2, 0, 0, 0, 7⟩
        0x20).bit_xor = 0 ∧
    (slapstic_tweak slapstic104 cpu0 ⟨SlapState.BITWISE2, 3, 0, 3, 0, 3⟩
        0x3d92).bit_xor = 3 ^^^ 3 ∧
    bitxor_inv (slapstic_run slapstic104 cpu0
      ⟨SlapState.DISABLED, 3, 0, 0, 0, 0⟩ [0, 0x3d90, 0x20, 0x3d91]) := by
  refine ⟨?_, ?_, ?_⟩
  · exact C10_bitxor_zero_or_three.1 slapstic104 cpu0
      ⟨SlapState.BITWISE1, 2, 0, 0, 0, 7⟩ 0x20 rfl (by decide)
  · exact C10_bitxor_zero_or_three.2.1 slapstic104 cpu0
      ⟨SlapState.BITWISE2, 3, 0, 3, 0, 3⟩ 0x3d92 rfl (by decide)
      (Or.inr (Or.inl (by decide)))
  · exact C10_bitxor_zero_or_three.2.2.2.2 slapstic104 cpu0
      ⟨SlapState.DISABLED, 3, 0, 0, 0, 0⟩ [0, 0x3d90, 0x20, 0x3d91] (by decide)

end Slapstic
